/-
Verification of the DeepFakeShield core: the multimodal fusion/verdict
engine (`src/ml/inference/fusion.py`), the video forensics postprocessing
(`src/ml/inference/video_forensics.py`), the job state machine
(`src/backend/app/core/celery_app.py`) and the worker progress writes
(`src/backend/app/workers/inference.py`).

Python floats are embedded as exact rationals (ℚ); `np.std`, which is
irrational in general, is embedded as the exact rational population
variance together with a real-valued `1 - Real.sqrt variance` on top.
-/
import Mathlib

namespace MultimodalFusionService

/-- Modality weights held by the fusion engine (`self.weights`,
a dict with keys "video", "audio", "lipsync"). -/
structure Weights where
  video : ℚ
  audio : ℚ
  lipsync : ℚ
deriving DecidableEq, Repr

/-- The class constant `DEFAULT_WEIGHTS = {"video": 0.45, "audio": 0.30,
"lipsync": 0.25}` (fusion.py lines 27-31). -/
def DEFAULT_WEIGHTS : Weights := ⟨0.45, 0.30, 0.25⟩

/-- One modality's entry in the input mapping: a dict that may or may not
carry the "score" and "confidence" keys. -/
structure ModalityReading where
  score : Option ℚ
  confidence : Option ℚ

/-- The input to `preprocess`: a dict that may or may not carry the
"video", "audio" and "lipsync" keys (`input_data.get(key, {})`). -/
structure FusionInput where
  video : Option ModalityReading
  audio : Option ModalityReading
  lipsync : Option ModalityReading

/-- The empty dict `{}` used as the default of `input_data.get`. -/
def emptyReading : ModalityReading := ⟨none, none⟩

/-- Output of `preprocess` (fusion.py lines 52-71): the six numbers fed
to `predict`.  (The `raw_results` passthrough is dropped: `predict` and
`postprocess` never read it.) -/
structure Preprocessed where
  video_score : ℚ
  audio_score : ℚ
  lipsync_score : ℚ
  video_confidence : ℚ
  audio_confidence : ℚ
  lipsync_confidence : ℚ

/-- Embeds `MultimodalFusionService.preprocess` (fusion.py lines 52-71): a
missing modality key yields `{}`, after which `.get("score", 0.0)` yields
score `0.0` and `.get("confidence", 1.0)` yields confidence `1.0`. -/
def preprocess (input : FusionInput) : Preprocessed :=
  let v := input.video.getD emptyReading
  let a := input.audio.getD emptyReading
  let l := input.lipsync.getD emptyReading
  { video_score := v.score.getD 0.0
    audio_score := a.score.getD 0.0
    lipsync_score := l.score.getD 0.0
    video_confidence := v.confidence.getD 1.0
    audio_confidence := a.confidence.getD 1.0
    lipsync_confidence := l.confidence.getD 1.0 }

/-- The confidence-weighted fusion of `predict` (fusion.py lines 94-110,
the branch taken when no learned fusion model is loaded, which is the
default: `load_model` only sets a model when a `model_path` exists):
adjusted weight = base weight × confidence, normalized iff the total is
positive, then the weighted sum of the three scores. -/
def fusedScore (w : Weights) (p : Preprocessed) : ℚ :=
  let aw_video := w.video * p.video_confidence
  let aw_audio := w.audio * p.audio_confidence
  let aw_lipsync := w.lipsync * p.lipsync_confidence
  let total_weight := aw_video + aw_audio + aw_lipsync
  if total_weight > 0 then
    (aw_video / total_weight) * p.video_score +
    (aw_audio / total_weight) * p.audio_score +
    (aw_lipsync / total_weight) * p.lipsync_score
  else
    aw_video * p.video_score + aw_audio * p.audio_score +
    aw_lipsync * p.lipsync_score

/-- Population variance of the three-element list
`scores = [video_score, audio_score, lipsync_score]` of fusion.py line
113 (the quantity under the square root of `np.std(scores)`, which uses
`ddof=0`). -/
def fusionVariance (vs as ls : ℚ) : ℚ :=
  let m := (vs + as + ls) / 3
  ((vs - m) ^ 2 + (as - m) ^ 2 + (ls - m) ^ 2) / 3

/-- The quantity `agreement = 1 - np.std(scores)` (fusion.py line 114),
computed over all three
score slots — no restriction to present modalities and no clamping. -/
noncomputable def fusionAgreement (vs as ls : ℚ) : ℝ :=
  1 - Real.sqrt (fusionVariance vs as ls)

/-- The dict returned by `predict` (fusion.py lines 116-125). -/
structure PredictOutput where
  fused_score : ℚ
  agreement : ℝ
  modality_scores : ℚ × ℚ × ℚ
  used_weights : Weights

/-- Embeds `MultimodalFusionService.predict` (fusion.py lines 73-125),
confidence-weighted branch. -/
noncomputable def predict (w : Weights) (p : Preprocessed) : PredictOutput :=
  { fused_score := fusedScore w p
    agreement := fusionAgreement p.video_score p.audio_score p.lipsync_score
    modality_scores := (p.video_score, p.audio_score, p.lipsync_score)
    used_weights := w }

/-- Verdict labels produced by `postprocess`. -/
inductive Label where
  | AUTHENTIC
  | LIKELY_AUTHENTIC
  | SUSPICIOUS
  | LIKELY_FAKE
  | FAKE
deriving DecidableEq, Repr

/-- The label branch of `postprocess` (fusion.py lines 134-148). -/
def fusionLabel (score : ℚ) : Label :=
  if score < 0.25 then .AUTHENTIC
  else if score < 0.45 then .LIKELY_AUTHENTIC
  else if score < 0.6 then .SUSPICIOUS
  else if score < 0.8 then .LIKELY_FAKE
  else .FAKE

/-- The dict returned by `postprocess` (fusion.py lines 162-171);
the fixed description strings are determined by the label and elided. -/
structure FusionVerdict where
  overall_score : ℚ
  label : Label
  confidence : ℝ
  agreement : ℝ
  modality_breakdown : ℚ × ℚ × ℚ
  concerns : List String
  weights_used : Weights

/-- Embeds `MultimodalFusionService.postprocess` (fusion.py lines 127-171). -/
noncomputable def postprocess (r : PredictOutput) : FusionVerdict :=
  { overall_score := r.fused_score
    label := fusionLabel r.fused_score
    confidence := r.agreement * (1 - |(r.fused_score : ℝ) - 0.5| * 0.5)
    agreement := r.agreement
    modality_breakdown := r.modality_scores
    concerns :=
      (if r.modality_scores.1 > 0.5 then
        ["Visual manipulation artifacts detected"] else []) ++
      (if r.modality_scores.2.1 > 0.5 then
        ["Synthetic audio patterns detected"] else []) ++
      (if r.modality_scores.2.2 > 0.5 then
        ["Audio-visual synchronization mismatch"] else [])
    weights_used := r.used_weights }

/-- One element of `calibrate`'s `validation_data`: modality scores plus
a 0/1 ground-truth label. -/
structure Sample where
  video_score : ℚ
  audio_score : ℚ
  lipsync_score : ℚ
  label : ℤ

/-- The inner accuracy evaluation of one candidate weight triple
(fusion.py lines 194-206): count the samples whose thresholded fused
score (`1 if fused > 0.5 else 0`) matches the label, then
`correct / len(validation_data) if validation_data else 0`. -/
def accuracyOf (w : Weights) (data : List Sample) : ℚ :=
  let correct := (data.filter (fun s =>
    let fused := w.video * s.video_score + w.audio * s.audio_score +
      w.lipsync * s.lipsync_score
    (if fused > 0.5 then (1 : ℤ) else 0) = s.label)).length
  if data.isEmpty then 0 else (correct : ℚ) / (data.length : ℚ)

/-- Grid of `v_w` values: `np.arange(0.2, 0.7, 0.1)` (fusion.py line 187),
embedded as the exact decimals the loop ranges over. -/
def gridVW : List ℚ := [0.2, 0.3, 0.4, 0.5, 0.6]

/-- Grid of `a_w` values: `np.arange(0.1, 0.5, 0.1)` (fusion.py line 188). -/
def gridAW : List ℚ := [0.1, 0.2, 0.3, 0.4]

/-- One iteration of the grid search (fusion.py lines 189-209): skip the
candidate when `l_w = 1 - v_w - a_w < 0.05`, otherwise keep it iff its
accuracy strictly improves on the best so far (ties keep the earlier
candidate). -/
def calibStep (data : List Sample) (st : Weights × ℚ) (vw aw : ℚ) :
    Weights × ℚ :=
  let lw := 1.0 - vw - aw
  if lw < 0.05 then st
  else
    let w : Weights := ⟨vw, aw, lw⟩
    let acc := accuracyOf w data
    if acc > st.2 then (w, acc) else st

/-- Embeds `MultimodalFusionService.calibrate` (fusion.py lines 173-212).  The
engine's current stored weights are the first argument (they are read by
no line of the body: the search starts from `DEFAULT_WEIGHTS.copy()` and
`best_accuracy = 0.0`).  The result models the pair
(`self.weights` after the call — line 211 assigns `best_weights` to it —,
the returned `best_weights`). -/
def calibrate (_current : Weights) (data : List Sample) :
    Weights × Weights :=
  let best := (gridVW.foldl (fun st vw =>
    gridAW.foldl (fun st aw => calibStep data st vw aw) st)
    (DEFAULT_WEIGHTS, 0.0)).1
  (best, best)

end MultimodalFusionService

namespace VideoForensicsService

/-- One frame-level prediction dict produced by
`VideoForensicsService.predict` (video_forensics.py lines 132-167). -/
structure FramePrediction where
  frame_index : ℕ
  timestamp_ms : ℕ
  fake_probability : ℚ
deriving DecidableEq, Repr

/-- Mean of the `fake_probability` values (`np.mean(probs)`,
video_forensics.py line 187); only applied to nonempty lists. -/
def meanProb (probs : List ℚ) : ℚ :=
  probs.sum / (probs.length : ℚ)

/-- Max of the `fake_probability` values (`np.max(probs)`,
video_forensics.py line 188); only applied to nonempty lists. -/
def maxProb (probs : List ℚ) : ℚ :=
  probs.foldl max 0

/-- Population variance of the `fake_probability` values: the quantity
under the square root of `np.std(probs)` (video_forensics.py line 189). -/
def varProb (probs : List ℚ) : ℚ :=
  let m := meanProb probs
  (probs.map (fun p => (p - m) ^ 2)).sum / (probs.length : ℚ)

/-- The dict returned by `VideoForensicsService.postprocess`
(video_forensics.py lines 171-219).  The real-valued
`confidence = 1 - np.std(probs)` is `1 - Real.sqrt variance` of the
recorded variance. -/
structure VideoResult where
  score : ℚ
  label : String
  variance : ℚ
  mean_probability : ℚ
  max_probability : ℚ
  frame_count : ℕ
  flagged_frame_count : ℕ
  flagged_frames : List FramePrediction
deriving Repr

/-- Embeds `VideoForensicsService.postprocess` (video_forensics.py lines
171-219): empty predictions short-circuit to a neutral result; otherwise
suspicious frames are those with `fake_probability > threshold` where
`threshold = 0.5`, the returned `flagged_frames` keep only the first 10
(`flagged_frames[:10]`), and the final score is
`0.6*mean + 0.3*max + 0.1*(std > 0.2)` — the boolean `std > 0.2` is
embedded as `variance > 0.04`, exactly equivalent since `Real.sqrt` is
strictly monotone on nonnegative reals and `0.2^2 = 0.04`. -/
def postprocess (predictions : List FramePrediction) : VideoResult :=
  if predictions.isEmpty then
    { score := 0.0, label := "AUTHENTIC", variance := 0,
      mean_probability := 0, max_probability := 0, frame_count := 0,
      flagged_frame_count := 0, flagged_frames := [] }
  else
    let probs := predictions.map (·.fake_probability)
    let mean_prob := meanProb probs
    let max_prob := maxProb probs
    let var_prob := varProb probs
    let threshold : ℚ := 0.5
    let flagged := predictions.filter (fun p => p.fake_probability > threshold)
    let score := 0.6 * mean_prob + 0.3 * max_prob +
      0.1 * (if var_prob > 0.04 then 1 else 0)
    { score := score
      label := if score < 0.3 then "AUTHENTIC"
               else if score < 0.6 then "SUSPICIOUS" else "FAKE"
      variance := var_prob
      mean_probability := mean_prob
      max_probability := max_prob
      frame_count := predictions.length
      flagged_frame_count := flagged.length
      flagged_frames := flagged.take 10 }

end VideoForensicsService

namespace Workers

/-- The flagged-frame selection of the worker task `run_video_inference`
(inference.py lines 93-104): a frame is appended to `flagged_frames`
iff its simulated `fake_prob` satisfies `fake_prob > 0.7`. -/
def workerFlaggedFrames (preds : List VideoForensicsService.FramePrediction) :
    List VideoForensicsService.FramePrediction :=
  preds.filter (fun p => p.fake_probability > 0.7)

/-- The sequence of `progress` values written by `run_video_inference`
(inference.py lines 76-137) for a run over `n` frames that completes:
`0.0` at entry; `1.0` immediately when there are no frames; otherwise
`i / len(frames)` for each frame index `i` with `i % 10 == 0`, then a
final `1.0`. -/
def videoProgressWrites (n : ℕ) : List ℚ :=
  if n = 0 then [0.0, 1.0]
  else 0.0 :: ((((List.range n).filter (fun i => i % 10 = 0)).map
    (fun i : ℕ => (i : ℚ) / (n : ℚ))) ++ [1.0])

/-- Progress writes of `run_audio_inference` (inference.py lines 156-197):
`0.0` at entry, `1.0` at the end (on both the missing-file and the
normal path). -/
def audioProgressWrites : List ℚ := [0.0, 1.0]

/-- Progress writes of `run_lipsync_inference` (inference.py lines
214-247): `0.0` at entry, `1.0` at the end. -/
def lipsyncProgressWrites : List ℚ := [0.0, 1.0]

/-- Progress writes of `run_fusion` (inference.py lines 264-310):
`0.0` at entry, `1.0` at the end. -/
def fusionProgressWrites : List ℚ := [0.0, 1.0]

/-- The progress value written on any worker failure:
`update_job_status(job_id, TaskState.FAILED, 0.0, str(e))`
(inference.py lines 148, 205, 255, 322). -/
def failureProgressWrite : ℚ := 0.0

/-- The sequence of `progress` values persisted by a successful
`run_inference_pipeline` run (inference.py lines 327-355), which executes
video, audio, lip-sync and fusion inference in order. -/
def pipelineProgressWrites (n : ℕ) : List ℚ :=
  videoProgressWrites n ++ audioProgressWrites ++
  lipsyncProgressWrites ++ fusionProgressWrites

end Workers

namespace JobStateMachine

/-- The class `TaskState` (celery_app.py lines 46-58): the analysis job
states.  The source constant `INFER_AUDIO` is embedded under the name
`INFER_AUDIO_STAGE`. -/
inductive TaskState where
  | PENDING
  | VALIDATING
  | EXTRACTING
  | TRANSCRIBING
  | INFER_VIDEO
  | INFER_AUDIO_STAGE
  | LIPSYNC
  | FUSION
  | REPORT
  | DONE
  | FAILED
deriving DecidableEq, Repr, Fintype

/-- The table `STATE_TRANSITIONS` (celery_app.py lines 62-74): the list
of states
reachable in one step from each state. -/
def STATE_TRANSITIONS : TaskState → List TaskState
  | .PENDING => [.VALIDATING, .FAILED]
  | .VALIDATING => [.EXTRACTING, .FAILED]
  | .EXTRACTING => [.TRANSCRIBING, .FAILED]
  | .TRANSCRIBING => [.INFER_VIDEO, .FAILED]
  | .INFER_VIDEO => [.INFER_AUDIO_STAGE, .FAILED]
  | .INFER_AUDIO_STAGE => [.LIPSYNC, .FAILED]
  | .LIPSYNC => [.FUSION, .FAILED]
  | .FUSION => [.REPORT, .FAILED]
  | .REPORT => [.DONE, .FAILED]
  | .DONE => []
  | .FAILED => []

/-- The single designated happy-path successor of each state, per the
happy-path rows of `STATE_TRANSITIONS`; `none` for the terminal states. -/
def happyNext : TaskState → Option TaskState
  | .PENDING => some .VALIDATING
  | .VALIDATING => some .EXTRACTING
  | .EXTRACTING => some .TRANSCRIBING
  | .TRANSCRIBING => some .INFER_VIDEO
  | .INFER_VIDEO => some .INFER_AUDIO_STAGE
  | .INFER_AUDIO_STAGE => some .LIPSYNC
  | .LIPSYNC => some .FUSION
  | .FUSION => some .REPORT
  | .REPORT => some .DONE
  | .DONE => none
  | .FAILED => none

/-- Modelled from the spec: the `StateError` raised on an illegal
transition request.  No enforcement code exists under `src/` — the
repository declares `STATE_TRANSITIONS` (celery_app.py) but
`update_job_status` (inference.py lines 17-31) writes states without
consulting it, and no `StateError` class is defined anywhere in `src/`;
the spec's §4.3/§7 describe the guard that checks a requested transition
against the table and rejects it. -/
inductive StateError where
  | illegalTransition (current requested : TaskState)
deriving DecidableEq, Repr

/-- Modelled from the spec: request a transition from `s` to `t`; allowed
iff `t` is listed in `STATE_TRANSITIONS s`, otherwise rejected with a
`StateError`. -/
def requestTransition (s t : TaskState) : Except StateError TaskState :=
  if t ∈ STATE_TRANSITIONS s then .ok t
  else .error (.illegalTransition s t)

end JobStateMachine

open MultimodalFusionService JobStateMachine

/-- C1: the fusion postprocess assigns labels by the 5-bucket closed-open
scheme — AUTHENTIC on [0,0.25), LIKELY_AUTHENTIC on [0.25,0.45),
SUSPICIOUS on [0.45,0.6), LIKELY_FAKE on [0.6,0.8), FAKE on [0.8,1] —
and the ten boundary inputs 0.0, 0.249999, 0.25, 0.449999, 0.45,
0.599999, 0.6, 0.799999, 0.8, 1.0 map respectively to AUTHENTIC,
AUTHENTIC, LIKELY_AUTHENTIC, LIKELY_AUTHENTIC, SUSPICIOUS, SUSPICIOUS,
LIKELY_FAKE, LIKELY_FAKE, FAKE, FAKE. -/
theorem fusion_label_bucket_scheme :
    (∀ s : ℚ, 0 ≤ s → s < 0.25 → fusionLabel s = .AUTHENTIC) ∧
    (∀ s : ℚ, 0.25 ≤ s → s < 0.45 → fusionLabel s = .LIKELY_AUTHENTIC) ∧
    (∀ s : ℚ, 0.45 ≤ s → s < 0.6 → fusionLabel s = .SUSPICIOUS) ∧
    (∀ s : ℚ, 0.6 ≤ s → s < 0.8 → fusionLabel s = .LIKELY_FAKE) ∧
    (∀ s : ℚ, 0.8 ≤ s → s ≤ 1 → fusionLabel s = .FAKE) ∧
    fusionLabel 0.0 = .AUTHENTIC ∧
    fusionLabel 0.249999 = .AUTHENTIC ∧
    fusionLabel 0.25 = .LIKELY_AUTHENTIC ∧
    fusionLabel 0.449999 = .LIKELY_AUTHENTIC ∧
    fusionLabel 0.45 = .SUSPICIOUS ∧
    fusionLabel 0.599999 = .SUSPICIOUS ∧
    fusionLabel 0.6 = .LIKELY_FAKE ∧
    fusionLabel 0.799999 = .LIKELY_FAKE ∧
    fusionLabel 0.8 = .FAKE ∧
    fusionLabel 1.0 = .FAKE := by
  refine ⟨?_, ?_, ?_, ?_, ?_, ?_, ?_, ?_, ?_, ?_, ?_, ?_, ?_, ?_, ?_⟩ <;>
    first
      | (intro s h1 h2
         simp only [fusionLabel]
         split_ifs <;> first | rfl | linarith)
      | norm_num [fusionLabel]

/-- C1 witness: the bucket rules applied at concrete scores. -/
theorem fusion_label_bucket_scheme_witness :
    fusionLabel 0.1 = .AUTHENTIC ∧ fusionLabel 0.5 = .SUSPICIOUS :=
  ⟨fusion_label_bucket_scheme.1 0.1 (by norm_num) (by norm_num),
   fusion_label_bucket_scheme.2.2.1 0.5 (by norm_num) (by norm_num)⟩

/-- C2 counterexample: with only the video modality present at score 1.0
and confidence 1.0, the fused score is 0.45, not 1.0 — `preprocess` gives
an absent modality score 0.0 and confidence 1.0, so absent modalities
keep their full base weight in the weighted sum. -/
theorem single_modality_fusion_counterexample :
    fusedScore DEFAULT_WEIGHTS
      (preprocess ⟨some ⟨some 1.0, some 1.0⟩, none, none⟩) = 0.45 ∧
    (0.45 : ℚ) ≠ 1.0 := by
  constructor
  · norm_num [fusedScore, preprocess, DEFAULT_WEIGHTS, emptyReading]
  · norm_num

/-- C2 amended: with exactly one modality present at confidence 1.0 and
score `s`, the fused score equals that modality's base weight times `s`
(0.45·s for video, 0.30·s for audio, 0.25·s for lip-sync): the two absent
modalities are defaulted by `preprocess` to score 0.0 with confidence
1.0, so the normalization total is 1 and each absent modality contributes
weight × 0. -/
theorem single_modality_fusion_weighted (s : ℚ) :
    fusedScore DEFAULT_WEIGHTS
      (preprocess ⟨some ⟨some s, some 1.0⟩, none, none⟩) = 0.45 * s ∧
    fusedScore DEFAULT_WEIGHTS
      (preprocess ⟨none, some ⟨some s, some 1.0⟩, none⟩) = 0.30 * s ∧
    fusedScore DEFAULT_WEIGHTS
      (preprocess ⟨none, none, some ⟨some s, some 1.0⟩⟩) = 0.25 * s := by
  refine ⟨?_, ?_, ?_⟩ <;>
    (norm_num [fusedScore, preprocess, DEFAULT_WEIGHTS, emptyReading];
     try ring)

/-- C3 counterexample: all three modalities present with score 1.0 and
confidence 0.0: the total adjusted weight is 0, the normalization is
skipped, and the fused score is the zero-weighted sum 0 — not the
unweighted mean 1 of the present raw scores. -/
theorem zero_confidence_fusion_counterexample :
    fusedScore DEFAULT_WEIGHTS
      (preprocess ⟨some ⟨some 1.0, some 0.0⟩, some ⟨some 1.0, some 0.0⟩,
        some ⟨some 1.0, some 0.0⟩⟩) = 0 ∧
    ((1.0 : ℚ) + 1.0 + 1.0) / 3 = 1 ∧ (0 : ℚ) ≠ 1 := by
  refine ⟨?_, by norm_num, by norm_num⟩
  norm_num [fusedScore, preprocess, DEFAULT_WEIGHTS]

/-- C3 amended: when every present modality has confidence 0 (which
requires all three to be present, since an absent modality defaults to
confidence 1.0), the fused score is 0 — the code skips normalization when
the total adjusted weight is not positive and sums with the zero adjusted
weights; there is no fallback to the unweighted mean. -/
theorem zero_total_weight_fused_zero (w : Weights) (vs as ls : ℚ) :
    fusedScore w
      (preprocess ⟨some ⟨some vs, some 0.0⟩, some ⟨some as, some 0.0⟩,
        some ⟨some ls, some 0.0⟩⟩) = 0 := by
  norm_num [fusedScore, preprocess]

/-- C6 counterexample: an engine constructed with custom weights
(0.5, 0.3, 0.2) and calibrated on the empty validation set ends up
storing `DEFAULT_WEIGHTS` (fusion.py line 211 assigns
`self.weights = best_weights`), which differs from its prior weights, and
fusing the input (video score 1, others 0, all confidences 1) before the
call gives 0.5 while after the call it gives 0.45. -/
theorem calibrate_mutation_counterexample :
    (calibrate ⟨0.5, 0.3, 0.2⟩ []).1 = DEFAULT_WEIGHTS ∧
    DEFAULT_WEIGHTS ≠ (⟨0.5, 0.3, 0.2⟩ : Weights) ∧
    fusedScore ⟨0.5, 0.3, 0.2⟩ ⟨1, 0, 0, 1, 1, 1⟩ ≠
      fusedScore DEFAULT_WEIGHTS ⟨1, 0, 0, 1, 1, 1⟩ := by
  refine ⟨?_, ?_, ?_⟩
  · norm_num [calibrate, calibStep, accuracyOf, gridVW, gridAW,
      DEFAULT_WEIGHTS]
  · simp only [DEFAULT_WEIGHTS, ne_eq, Weights.mk.injEq]
    norm_num
  · norm_num [fusedScore, DEFAULT_WEIGHTS]

/-- C6 amended: the weight triple `calibrate` returns is a pure function
of the validation set — it does not depend on the engine's stored weights
(the grid search starts from the class constant `DEFAULT_WEIGHTS`) — but
`calibrate` is not free of persistent effects: it overwrites the engine's
stored weights with the selected triple (`self.weights = best_weights`),
so fusions after the call use the new weights. -/
theorem calibrate_result_pure_state_overwritten
    (w w' : Weights) (data : List Sample) :
    (calibrate w data).2 = (calibrate w' data).2 ∧
    (calibrate w data).1 = (calibrate w data).2 :=
  ⟨rfl, rfl⟩

/-- C10: calibrating on the empty validation list returns the default
weight triple (0.45, 0.30, 0.25) and stores the same: the guarded
accuracy `correct / len(validation_data) if validation_data else 0`
evaluates to 0 for every candidate (no division by zero occurs), and
`0 > 0` never holds, so no candidate replaces the initial best. -/
theorem calibrate_empty_returns_default (w : Weights) :
    calibrate w [] = (DEFAULT_WEIGHTS, DEFAULT_WEIGHTS) := by
  norm_num [calibrate, calibStep, accuracyOf, gridVW, gridAW]

/-- C4: from every non-terminal state the machine permits exactly the
designated next happy-path state or FAILED; any other requested
transition (in particular PENDING → FUSION) is rejected with a
StateError; DONE and FAILED admit no outbound transitions.  The
transition table is embedded from `STATE_TRANSITIONS` in the source; the
rejection itself is modelled from the spec (see `requestTransition`). -/
theorem state_machine_exactly_two_transitions :
    (∀ s t : TaskState, requestTransition s t = .ok t ↔
      (happyNext s = some t ∨ ((happyNext s).isSome ∧ t = .FAILED))) ∧
    (∀ s : TaskState, (happyNext s).isSome ↔ (s ≠ .DONE ∧ s ≠ .FAILED)) ∧
    requestTransition .PENDING .FUSION =
      .error (.illegalTransition .PENDING .FUSION) ∧
    STATE_TRANSITIONS .DONE = [] ∧ STATE_TRANSITIONS .FAILED = [] := by
  refine ⟨?_, by decide, rfl, rfl, rfl⟩
  intro s t
  cases s <;> cases t <;> simp [requestTransition, STATE_TRANSITIONS, happyNext]

/-- C9 counterexample: a frame with per-unit score 0.6 exceeds 0.5, so
the claim says it is flagged, but the worker task `run_video_inference`
only flags frames with `fake_prob > 0.7` and leaves it out. -/
theorem flagged_threshold_counterexample :
    Workers.workerFlaggedFrames [⟨0, 0, 0.6⟩] = [] ∧
    (0.6 : ℚ) > 0.5 := by
  constructor
  · simp only [Workers.workerFlaggedFrames, List.filter]
    norm_num
  · norm_num

/-- C9 amended: the video service's `postprocess` flags exactly the units
with per-unit score > 0.5 but returns only the first 10 of them
(`flagged_frames[:10]`), while the worker video path flags frames at
threshold 0.7 — so the flagging threshold is not the same 0.5 for every
invocation (the worker audio and lip-sync paths use 0.6 and 0.4
respectively). -/
theorem flagged_ranges_characterization :
    (∀ (p : VideoForensicsService.FramePrediction)
       (preds : List VideoForensicsService.FramePrediction),
      p ∈ Workers.workerFlaggedFrames preds ↔
        p ∈ preds ∧ p.fake_probability > 0.7) ∧
    (∀ preds : List VideoForensicsService.FramePrediction,
      (VideoForensicsService.postprocess preds).flagged_frames =
        (preds.filter (fun p => p.fake_probability > 0.5)).take 10) := by
  constructor
  · intro p preds
    simp [Workers.workerFlaggedFrames, List.mem_filter]
  · intro preds
    by_cases h : preds.isEmpty
    · rw [List.isEmpty_iff] at h
      subst h
      simp [VideoForensicsService.postprocess]
    · simp [VideoForensicsService.postprocess, h]

/-- C7 counterexample: input with only the video modality present, score
0.7 and confidence 1.0 — so every present modality score equals 0.7 —
yet `predict` computes agreement over all three score slots
[0.7, 0, 0] (absent modalities defaulted to 0.0 by `preprocess`), giving
1 − √(49/450) ≠ 1.0. -/
theorem fusion_agreement_counterexample :
    (predict DEFAULT_WEIGHTS
      (preprocess ⟨some ⟨some 0.7, some 1.0⟩, none, none⟩)).agreement ≠ 1 := by
  have hpre : preprocess ⟨some ⟨some 0.7, some 1.0⟩, none, none⟩ =
      ⟨0.7, 0.0, 0.0, 1.0, 1.0, 1.0⟩ := rfl
  have hvar : fusionVariance 0.7 0.0 0.0 = 49 / 450 := by
    norm_num [fusionVariance]
  simp only [predict, hpre, fusionAgreement, hvar]
  intro h
  have h0 : Real.sqrt ((49 / 450 : ℚ) : ℝ) = 0 := by linarith
  rw [Real.sqrt_eq_zero'] at h0
  norm_num at h0

/-- C7 amended: agreement is `1 − std` over all three modality score
slots (absent modalities contributing their default 0.0) with no
clamping, and it equals exactly 1.0 iff the three slot scores are all
equal — in particular when all three modalities are present with equal
scores, but not when only one or two are present with a nonzero common
score. -/
theorem fusion_agreement_one_iff_all_equal (vs as ls : ℚ) :
    fusionAgreement vs as ls = 1 ↔ (vs = as ∧ as = ls) := by
  unfold fusionAgreement
  constructor
  · intro h
    have h0 : Real.sqrt ((fusionVariance vs as ls : ℚ) : ℝ) = 0 := by
      linarith
    rw [Real.sqrt_eq_zero'] at h0
    have hq : fusionVariance vs as ls ≤ 0 := by exact_mod_cast h0
    simp only [fusionVariance] at hq
    have h1 : (vs - (vs + as + ls) / 3) ^ 2 = 0 := by
      nlinarith [sq_nonneg (vs - (vs + as + ls) / 3),
        sq_nonneg (as - (vs + as + ls) / 3),
        sq_nonneg (ls - (vs + as + ls) / 3)]
    have h2 : (as - (vs + as + ls) / 3) ^ 2 = 0 := by
      nlinarith [sq_nonneg (vs - (vs + as + ls) / 3),
        sq_nonneg (as - (vs + as + ls) / 3),
        sq_nonneg (ls - (vs + as + ls) / 3)]
    have h3 : (ls - (vs + as + ls) / 3) ^ 2 = 0 := by
      nlinarith [sq_nonneg (vs - (vs + as + ls) / 3),
        sq_nonneg (as - (vs + as + ls) / 3),
        sq_nonneg (ls - (vs + as + ls) / 3)]
    have e1 := sub_eq_zero.mp (sq_eq_zero_iff.mp h1)
    have e2 := sub_eq_zero.mp (sq_eq_zero_iff.mp h2)
    have e3 := sub_eq_zero.mp (sq_eq_zero_iff.mp h3)
    constructor <;> linarith
  · rintro ⟨h1, h2⟩
    subst h1; subst h2
    have hz : fusionVariance vs vs vs = 0 := by
      simp only [fusionVariance]
      ring_nf
    rw [hz]
    simp

/-- C8 counterexample: with only the video modality present (score 1,
confidence 0.5), scaling the present confidence by c = 2 changes the
fused score from 9/31 to 9/20: the absent modalities' default confidence
1.0 is not scaled, so the relative weights shift. -/
theorem fusion_scale_counterexample :
    fusedScore DEFAULT_WEIGHTS
      (preprocess ⟨some ⟨some 1.0, some (2 * 0.5)⟩, none, none⟩) ≠
    fusedScore DEFAULT_WEIGHTS
      (preprocess ⟨some ⟨some 1.0, some 0.5⟩, none, none⟩) := by
  norm_num [fusedScore, preprocess, DEFAULT_WEIGHTS, emptyReading]

/-- C8 amended: fusion is invariant under scaling all three effective
confidences (i.e. those of present modalities together with the 1.0
defaults of absent ones) by a positive constant: with nonnegative
confidences, multiplying all three by c > 0 leaves the fused score
unchanged — both when the total weight is positive (the normalization
cancels c) and when it is zero (both sides degenerate to 0). -/
theorem fusion_scale_invariant (vs as ls vc ac lc c : ℚ)
    (hvc : 0 ≤ vc) (hac : 0 ≤ ac) (hlc : 0 ≤ lc) (hc : 0 < c) :
    fusedScore DEFAULT_WEIGHTS ⟨vs, as, ls, c * vc, c * ac, c * lc⟩ =
    fusedScore DEFAULT_WEIGHTS ⟨vs, as, ls, vc, ac, lc⟩ := by
  simp only [fusedScore, DEFAULT_WEIGHTS]
  rcases lt_or_eq_of_le (by positivity :
      (0 : ℚ) ≤ 0.45 * vc + 0.30 * ac + 0.25 * lc) with ht | ht
  · rw [if_pos (by nlinarith [mul_pos hc ht]), if_pos (by linarith)]
    rw [div_mul_eq_mul_div, div_mul_eq_mul_div, div_mul_eq_mul_div,
      div_mul_eq_mul_div, div_mul_eq_mul_div, div_mul_eq_mul_div,
      div_add_div_same, div_add_div_same, div_add_div_same,
      div_add_div_same,
      div_eq_div_iff (by nlinarith [mul_pos hc ht]) (by linarith)]
    ring
  · have hv : vc = 0 := by linarith
    have ha : ac = 0 := by linarith
    have hl : lc = 0 := by linarith
    rw [if_neg (by rw [hv, ha, hl]; norm_num),
      if_neg (by rw [hv, ha, hl]; norm_num)]
    rw [hv, ha, hl]
    ring

/-- C8 witness: the invariance applied at video score 1, all confidences
1, scale factor 2. -/
theorem fusion_scale_invariant_witness :
    fusedScore DEFAULT_WEIGHTS ⟨1, 0, 0, 2 * 1, 2 * 1, 2 * 1⟩ =
    fusedScore DEFAULT_WEIGHTS ⟨1, 0, 0, 1, 1, 1⟩ :=
  fusion_scale_invariant 1 0 0 1 1 1 2 (by norm_num) (by norm_num)
    (by norm_num) (by norm_num)

/-- Helper: the progress writes of the video stage are pairwise
non-decreasing. -/
theorem videoProgress_pairwise (n : ℕ) :
    (Workers.videoProgressWrites n).Pairwise (· ≤ ·) := by
  unfold Workers.videoProgressWrites
  by_cases h : n = 0
  · rw [if_pos h]
    norm_num
  · rw [if_neg h]
    have hn : (0 : ℚ) < (n : ℚ) := by
      exact_mod_cast Nat.pos_of_ne_zero h
    rw [List.pairwise_cons]
    constructor
    · intro b hb
      rcases List.mem_append.mp hb with hb | hb
      · obtain ⟨i, _, rfl⟩ := List.mem_map.mp hb
        exact le_trans (by norm_num)
          (div_nonneg (Nat.cast_nonneg i) hn.le)
      · simp only [List.mem_singleton] at hb
        subst hb
        norm_num
    · rw [List.pairwise_append]
      refine ⟨?_, by simp, ?_⟩
      · rw [List.pairwise_map]
        refine ((List.pairwise_lt_range n).filter _).imp ?_
        intro a b hab
        exact (div_le_div_iff_of_pos_right hn).mpr (by exact_mod_cast hab.le)
      · intro a ha b hb
        simp only [List.mem_singleton] at hb
        subst hb
        obtain ⟨i, hi, rfl⟩ := List.mem_map.mp ha
        have hilt : i < n := List.mem_range.mp (List.mem_filter.mp hi).1
        rw [show (1.0 : ℚ) = 1 from by norm_num, div_le_one hn]
        exact_mod_cast hilt.le

/-- Helper: every progress value of the video stage lies in [0,1]. -/
theorem videoProgress_bounds (n : ℕ) :
    ∀ p ∈ Workers.videoProgressWrites n, 0 ≤ p ∧ p ≤ 1 := by
  intro p hp
  unfold Workers.videoProgressWrites at hp
  by_cases h : n = 0
  · rw [if_pos h] at hp
    rcases List.mem_cons.mp hp with rfl | hp
    · norm_num
    · simp only [List.mem_singleton] at hp
      subst hp
      norm_num
  · rw [if_neg h] at hp
    have hn : (0 : ℚ) < (n : ℚ) := by
      exact_mod_cast Nat.pos_of_ne_zero h
    rcases List.mem_cons.mp hp with rfl | hp
    · norm_num
    rcases List.mem_append.mp hp with hp | hp
    · obtain ⟨i, hi, rfl⟩ := List.mem_map.mp hp
      have hilt : i < n := List.mem_range.mp (List.mem_filter.mp hi).1
      refine ⟨by positivity, ?_⟩
      rw [div_le_one hn]
      exact_mod_cast hilt.le
    · simp only [List.mem_singleton] at hp
      subst hp
      norm_num

/-- C5 counterexample: in a pipeline run over one frame, the persisted
progress sequence is [0, 0, 1, 0, 1, 0, 1, 0, 1] — each stage task first
writes progress 0.0 at its start, lowering the 1.0 persisted at the end
of the previous stage, so the sequence of progress writes within one run
is not monotonically non-decreasing. -/
theorem progress_monotone_counterexample :
    Workers.pipelineProgressWrites 1 =
      [0, 0, 1, 0, 1, 0, 1, 0, 1] ∧
    ¬ List.Chain' (· ≤ ·) (Workers.pipelineProgressWrites 1) := by
  constructor
  · norm_num [Workers.pipelineProgressWrites, Workers.videoProgressWrites,
      Workers.audioProgressWrites, Workers.lipsyncProgressWrites,
      Workers.fusionProgressWrites, List.range_succ]
  · norm_num [Workers.pipelineProgressWrites, Workers.videoProgressWrites,
      Workers.audioProgressWrites, Workers.lipsyncProgressWrites,
      Workers.fusionProgressWrites, List.range_succ, List.Chain']

/-- C5 amended: within each single stage task the persisted progress
values are non-decreasing, and every progress value written during a
pipeline run lies in [0,1]; but each stage's entry write and the failure
write set progress to 0.0, which lowers the 1.0 persisted at the end of
the previous stage, so monotonicity does not extend across a whole run. -/
theorem progress_monotone_within_stage :
    (∀ n : ℕ, List.Chain' (· ≤ ·) (Workers.videoProgressWrites n)) ∧
    List.Chain' (· ≤ ·) Workers.audioProgressWrites ∧
    List.Chain' (· ≤ ·) Workers.lipsyncProgressWrites ∧
    List.Chain' (· ≤ ·) Workers.fusionProgressWrites ∧
    (∀ n : ℕ, ∀ p ∈ Workers.pipelineProgressWrites n, 0 ≤ p ∧ p ≤ 1) ∧
    Workers.failureProgressWrite = 0 := by
  refine ⟨?_, by norm_num [Workers.audioProgressWrites],
    by norm_num [Workers.lipsyncProgressWrites],
    by norm_num [Workers.fusionProgressWrites], ?_,
    by norm_num [Workers.failureProgressWrite]⟩
  · intro n
    rw [List.chain'_iff_pairwise]
    exact videoProgress_pairwise n
  · intro n p hp
    simp only [Workers.pipelineProgressWrites, List.mem_append] at hp
    rcases hp with ((hp | hp) | hp) | hp
    · exact videoProgress_bounds n p hp
    · rcases List.mem_cons.mp hp with rfl | hp
      · norm_num
      · simp only [Workers.audioProgressWrites, List.mem_singleton] at hp
        subst hp
        norm_num
    · rcases List.mem_cons.mp hp with rfl | hp
      · norm_num
      · simp only [Workers.lipsyncProgressWrites, List.mem_singleton] at hp
        subst hp
        norm_num
    · rcases List.mem_cons.mp hp with rfl | hp
      · norm_num
      · simp only [Workers.fusionProgressWrites, List.mem_singleton] at hp
        subst hp
        norm_num

/-- C5 witness: the per-stage monotonicity and bounds applied to a run
over 11 frames and to the concrete progress value 1 written in it. -/
theorem progress_monotone_within_stage_witness :
    List.Chain' (· ≤ ·) (Workers.videoProgressWrites 11) ∧
    ((0 : ℚ) ≤ 1 ∧ (1 : ℚ) ≤ 1) :=
  ⟨progress_monotone_within_stage.1 11,
   progress_monotone_within_stage.2.2.2.2.1 11 1 (by
     norm_num [Workers.pipelineProgressWrites, Workers.videoProgressWrites,
       Workers.audioProgressWrites, Workers.lipsyncProgressWrites,
       Workers.fusionProgressWrites, List.range_succ])⟩
